import Mathlib

/-!
# Verification of the wolf-cli tool-orchestration core

Shallow embedding of the permission/risk-gating subsystem and the
tool-calling orchestration loop of the `wolf` package
(`wolf/permission_manager.py`, `wolf/tool_executor.py`,
`wolf/orchestrator.py`), together with theorems settling the
specification claims about them.

Modelling conventions:
* Python dict-valued tool parameters are modelled as association lists
  `List (String × String)`; the values the claims exercise are strings.
* Compiled regular expressions (`re.compile`) are external library
  objects; a compiled pattern is modelled by its source text together
  with its `search` semantics as a boolean function on strings.
* `json.loads` and `jsonschema.validate` are external libraries; they
  are modelled as parameters of the execution environment (`jsonLoads`)
  and of a tool's schema (`validateParams`).
* Console rendering is output-only and does not influence any returned
  value; it is dropped.  The human at a `prompt_toolkit` prompt is
  modelled as a `UserInput`: either the submitted line of text or a
  `KeyboardInterrupt`/`EOFError`.
-/

namespace Wolf

/-- Enumeration `TrustLevel` of `wolf/permission_manager.py`. -/
inductive TrustLevel where
  | SAFE_ONLY
  | INTERACTIVE
  | AUTO
deriving DecidableEq, Repr

/-- Enumeration `RiskLevel` of `wolf/permission_manager.py`. -/
inductive RiskLevel where
  | SAFE
  | MODIFYING
  | DESTRUCTIVE
deriving DecidableEq, Repr

/-- A compiled regex pattern (`re.compile(p)`): its source text and the
semantics of `pattern.search(s)` (whether a match is found anywhere). -/
structure Pattern where
  pattern : String
  search : String → Bool

/-- Tool parameters: a Python `Dict[str, Any]`, modelled as an
association list with string values (the values relevant to the claims
are command strings and paths). -/
abbrev Params : Type := List (String × String)

/-- What the human does at a confirmation prompt: submit a line of text,
or abort with `KeyboardInterrupt`/`EOFError`. -/
inductive UserInput where
  | text (s : String)
  | interrupt
deriving DecidableEq, Repr

/-- State of class `PermissionManager` in `wolf/permission_manager.py`: the
trust level and the compiled deny/allow pattern lists (platform defaults
plus custom entries, already concatenated and compiled by `__init__`). -/
structure PermissionManager where
  trust_level : TrustLevel
  denylist_patterns : List Pattern
  allowlist_patterns : List Pattern

/-- Python `str.strip()`: drop leading and trailing whitespace. -/
def pyStrip (s : String) : String :=
  String.mk (((s.data.dropWhile Char.isWhitespace).reverse.dropWhile
    Char.isWhitespace).reverse)

/-- Python `str.lower()`: lowercase every character. -/
def pyLower (s : String) : String :=
  String.mk (s.data.map Char.toLower)

/-- Method `YesValidator.validate` (permission_manager.py lines 89-94): the
submitted text, stripped, must be one of `YES`, `yes`, `Yes`. -/
def yesValidatorOk (text : String) : Bool :=
  ["YES", "yes", "Yes"].contains (pyStrip text)

/-- Method `PermissionManager.check_command` (permission_manager.py
lines 129-150): first denylist match wins and denies; otherwise first
allowlist match allows; otherwise allowed by default. -/
def PermissionManager.check_command (pm : PermissionManager) (command : String) :
    Bool × String :=
  match pm.denylist_patterns.find? (fun p => p.search command) with
  | some p => (false, "Command matches denylist pattern: " ++ p.pattern)
  | none =>
    match pm.allowlist_patterns.find? (fun p => p.search command) with
    | some _ => (true, "Command matches allowlist")
    | none => (true, "Command not in denylist")

/-- Method `PermissionManager.requires_confirmation` (permission_manager.py
lines 152-187).  Returns `(requires_confirmation, confirmation_type)`
with the confirmation type one of `"none"`, `"yn"`, `"yes"`, `"block"`.
`tool_name` and `params` are accepted but unused, as in the source. -/
def requires_confirmation (trust_level : TrustLevel) (risk_level : RiskLevel)
    (tool_name : String) (params : Params) : Bool × String :=
  if trust_level = TrustLevel.SAFE_ONLY ∧ risk_level ≠ RiskLevel.SAFE then
    (true, "block")
  else if trust_level = TrustLevel.AUTO then
    (false, "none")
  else
    match risk_level with
    | RiskLevel.SAFE => (false, "none")
    | RiskLevel.MODIFYING => (true, "yn")
    | RiskLevel.DESTRUCTIVE => (true, "yes")

/-- Method `PermissionManager.prompt_confirmation` (permission_manager.py lines
189-243), as a function of the user's single interaction with the
prompt.  `"block"` refuses before any prompt; a keyboard interrupt or
EOF during a prompt refuses; `"yn"` accepts `y`/`yes`/empty (the prompt
pre-fills the default `y`) after strip+lower; `"yes"` requires the
submitted text to pass `YesValidator` and be one of the three accepted
spellings; any other confirmation type falls through to `False`. -/
def prompt_confirmation (tool_name : String) (params : Params)
    (confirmation_type : String) (description : String) (user : UserInput) : Bool :=
  if confirmation_type == "block" then
    false
  else
    match user with
    | UserInput.interrupt => false
    | UserInput.text response =>
      if confirmation_type == "yn" then
        ["y", "yes", ""].contains (pyLower (pyStrip response))
      else if confirmation_type == "yes" then
        yesValidatorOk response && ["YES", "yes", "Yes"].contains (pyStrip response)
      else
        false

/-- The `execute_command` deny-list short-circuit at the top of
`PermissionManager.check_and_confirm` (permission_manager.py lines
264-275): when the tool is `execute_command`, a `command` parameter is
present, and `check_command` denies it, return the denial reason. -/
def commandDenyReason (pm : PermissionManager) (tool_name : String)
    (params : Params) : Option String :=
  if tool_name == "execute_command" then
    match List.lookup "command" params with
    | some command =>
      let res := pm.check_command command
      if res.1 then none else some res.2
    | none => none
  else none

/-- Method `PermissionManager.check_and_confirm` (permission_manager.py lines
245-287).  A deny-listed `execute_command` command forces the `"yes"`
(strong) prompt under every trust level (the `AUTO` and non-`AUTO`
branches differ only in the description text shown); otherwise the
decision follows `requires_confirmation`. -/
def check_and_confirm (pm : PermissionManager) (user : UserInput)
    (tool_name : String) (risk_level : RiskLevel) (params : Params)
    (description : String) : Bool :=
  match commandDenyReason pm tool_name params with
  | some reason =>
    if pm.trust_level = TrustLevel.AUTO then
      prompt_confirmation tool_name params "yes" description user
    else
      prompt_confirmation tool_name params "yes" (description ++ "\n" ++ reason) user
  | none =>
    let rc := requires_confirmation pm.trust_level risk_level tool_name params
    if rc.1 then prompt_confirmation tool_name params rc.2 description user
    else true

/-- The dictionary a tool implementation returns, restricted to the keys
the executor inspects (`ok`, `success`, `error`); `none` models key
absence.  Other payload keys never influence control flow. -/
structure RDict where
  ok : Option Bool := none
  success : Option Bool := none
  error : Option String := none
deriving DecidableEq, Repr

/-- Outcome of invoking a bound tool implementation: a returned result
dictionary, or a raised exception carrying `str(e)`. -/
inductive HandlerResult where
  | ok (r : RDict)
  | exn (msg : String)
deriving DecidableEq, Repr

/-- A Python value as far as the executor's `isinstance` checks care: a
dict of parameters, or a non-dict value remembered by its type name
(`type(params).__name__`). -/
inductive PyObj where
  | dict (d : Params)
  | nonDict (typeName : String)
deriving DecidableEq

/-- The `params` argument of `ToolExecutor.execute`: a raw string still
needing JSON decoding, a dict, or some other Python value. -/
inductive RawParams where
  | str (s : String)
  | dict (d : Params)
  | nonDict (typeName : String)
deriving DecidableEq

/-- Coerce a decoded JSON value into the executor's parameter shape. -/
def PyObj.toRawParams : PyObj → RawParams
  | PyObj.dict d => RawParams.dict d
  | PyObj.nonDict t => RawParams.nonDict t

/-- Class `ToolSchema` of `wolf/tool_registry.py`, restricted to the
fields `ToolExecutor.execute` reads.  The JSON-Schema `parameters`
field is modelled by its validation semantics under
`jsonschema.validate` (`validate_tool_params` in `utils/validation.py`
returns `(is_valid, error_message)`); the bound implementation is the
`handler` field. -/
structure ToolSchema where
  name : String
  description : String
  validateParams : Params → Bool × String
  risk_level : RiskLevel
  handler : Params → HandlerResult

/-- The result envelope `ToolExecutor.execute` returns; `none` models
an absent key (`input`/`result` are missing from the early-error
envelopes, and `error` is `None` on success). -/
structure Envelope where
  ok : Bool
  tool : String
  input : Option Params := none
  result : Option RDict := none
  error : Option String := none
deriving DecidableEq, Repr

/-- The executor's environment: the tool registry (`wolf/tool_registry.py`,
`ToolRegistry.get`, a dict lookup by name), the permission manager, and
the semantics of `json.loads` on the strings this run encounters
(returning a decoded value or the decode-error message). -/
structure ExecEnv where
  registry : String → Option ToolSchema
  pm : PermissionManager
  jsonLoads : String → Except String PyObj

/-- Method `ToolExecutor.execute` (tool_executor.py lines 66-158): unknown-tool
check, string-argument JSON decoding (a blank string becomes `{}`),
dict check, schema validation, permission check via
`PermissionManager.check_and_confirm`, then handler invocation with any
exception converted to an `ok=false` envelope.  On success the result
dict gets an `ok` key defaulted from `success` (default `True`), and the
envelope copies `ok` and `error` from it. -/
def ToolExecutor.execute (env : ExecEnv) (user : UserInput)
    (tool_name : String) (params : RawParams) : Envelope :=
  match env.registry tool_name with
  | none =>
    { ok := false, tool := tool_name, error := some ("Unknown tool: " ++ tool_name) }
  | some tool =>
    let parsed : Except String RawParams :=
      match params with
      | RawParams.str s =>
        if pyStrip s == "" then Except.ok (RawParams.dict []) else
          match env.jsonLoads s with
          | Except.ok v => Except.ok v.toRawParams
          | Except.error e => Except.error e
      | p => Except.ok p
    match parsed with
    | Except.error e =>
      { ok := false, tool := tool_name, error := some ("Invalid JSON arguments: " ++ e) }
    | Except.ok p =>
      match p with
      | RawParams.str _ =>
        { ok := false, tool := tool_name,
          error := some "Parameters must be a dict, got str" }
      | RawParams.nonDict t =>
        { ok := false, tool := tool_name,
          error := some ("Parameters must be a dict, got " ++ t) }
      | RawParams.dict d =>
        let v := tool.validateParams d
        if v.1 = false then
          { ok := false, tool := tool_name, input := some d,
            error := some ("Invalid parameters: " ++ v.2) }
        else if check_and_confirm env.pm user tool_name tool.risk_level d
            tool.description = false then
          { ok := false, tool := tool_name, input := some d,
            error := some "Permission denied by user" }
        else
          match tool.handler d with
          | HandlerResult.exn e =>
            { ok := false, tool := tool_name, input := some d, error := some e }
          | HandlerResult.ok r =>
            let r1 := if r.ok.isSome then r else { r with ok := some (r.success.getD true) }
            { ok := r1.ok.getD true, tool := tool_name, input := some d,
              result := some r1, error := r1.error }

/-- An OpenAI-style `function` object inside a tool call: `name` and
`arguments` as delivered by the model (`.get` yields `none` when the key
is absent). -/
structure FunctionCall where
  name : Option String := none
  arguments : Option RawParams := none
deriving DecidableEq

/-- One entry of an assistant message's `tool_calls` list. -/
structure RawToolCall where
  id : Option String := none
  function : FunctionCall := {}
deriving DecidableEq

/-- The assistant message inside one response choice: textual content,
OpenAI-style `tool_calls`, and the older single `function_call` shape. -/
structure AssistantMessage where
  content : String := ""
  tool_calls : List RawToolCall := []
  function_call : Option FunctionCall := none
deriving DecidableEq

/-- The model adapter's response (`ollama.chat`): either an `error` key
is present, or a list of choices, each carrying an assistant message
(`choices[0]["message"]`, flattened here). -/
structure LLMResponse where
  error : Option String := none
  choices : List AssistantMessage := []
deriving DecidableEq

/-- A normalized tool-call request, `Orchestrator._extract_tool_calls`
output shape: `{"id": str|None, "name": str, "arguments": dict|str}`. -/
structure ToolCallReq where
  id : Option String := none
  name : Option String := none
  arguments : Option RawParams := none
deriving DecidableEq

/-- Method `Orchestrator._extract_tool_calls` (orchestrator.py lines 75-104):
prefer a non-empty `tool_calls` list, else a single legacy
`function_call`, else no calls.  A present `function_call` is modelled
as a truthy (non-empty) dict. -/
def extractToolCalls (m : AssistantMessage) : List ToolCallReq :=
  if m.tool_calls.isEmpty then
    match m.function_call with
    | some fc => [{ id := none, name := fc.name, arguments := fc.arguments }]
    | none => []
  else
    m.tool_calls.map fun call =>
      { id := call.id, name := call.function.name, arguments := call.function.arguments }

/-- A conversation message's payload: plain text, or a tool-result
envelope (serialized with `json.dumps` in the source; kept structured
here since serialization is an external-library rendering step). -/
inductive MsgContent where
  | text (s : String)
  | toolResult (e : Envelope)
deriving DecidableEq

/-- One entry of the conversation history.  Assistant messages carrying
tool calls are appended raw, so the tool-call fields are preserved. -/
structure Message where
  role : String
  content : MsgContent
  name : Option String := none
  tool_call_id : Option String := none
  tool_calls : List RawToolCall := []
  function_call : Option FunctionCall := none
deriving DecidableEq

/-- The assistant message appended to history when it requested tool
calls (orchestrator.py line 171: `messages.append(assistant_message)`). -/
def assistantRaw (m : AssistantMessage) : Message :=
  { role := "assistant", content := MsgContent.text m.content,
    tool_calls := m.tool_calls, function_call := m.function_call }

/-- Argument normalization in the orchestrator's per-call loop
(orchestrator.py lines 186-194): a string is JSON-decoded (blank string,
or decode failure, yields `{}`), then `arguments or {}` replaces `None`
with `{}`.  A decoded non-dict value is passed through (the executor
rejects it); its Python truthiness is not modelled. -/
def parseCallArguments (jsonLoads : String → Except String PyObj)
    (args : Option RawParams) : RawParams :=
  match args with
  | none => RawParams.dict []
  | some (RawParams.str s) =>
    if pyStrip s == "" then RawParams.dict [] else
      match jsonLoads s with
      | Except.ok v => v.toRawParams
      | Except.error _ => RawParams.dict []
  | some a => a

/-- The tool-role message appended after each execution (orchestrator.py
lines 197-207); `tool_call_id` is included only when the id is truthy. -/
def toolResponseMsg (tool_name : String) (call_id : Option String)
    (result : Envelope) : Message :=
  { role := "tool", name := some tool_name, content := MsgContent.toolResult result,
    tool_call_id := match call_id with
      | some s => if s == "" then none else some s
      | none => none }

/-- Python `str(e)` for the `TypeError` raised at orchestrator.py line
212 when `"Unknown tool" in result.get("error", "")` is evaluated on an
envelope whose `error` key holds `None` (the key is present, so the
`""` default is not used). -/
def noneTypeIterError : String := "argument of type 'NoneType' is not iterable"

/-- The inner `for call in tool_calls` loop (orchestrator.py lines
174-216): a call with a missing or empty name is skipped; otherwise its
arguments are normalized, the executor is called, and one tool-role
message is appended.  Then line 212 evaluates
`not result.get("ok") and "Unknown tool" in result.get("error", "")`:
when `ok` is truthy the check short-circuits; when `ok` is falsy and the
error value is a string the check only logs and the loop continues
either way; but when `ok` is falsy and the `error` key holds `None`
(e.g. a handler that returned `success=False` with no error key, as
`shell_client.execute_shell_command` does on a failed command), the
membership test raises `TypeError`.  That exception propagates out of
the batch to the iteration's `except` clause — modelled as
`Except.error` carrying the messages appended so far (the crashing
call's tool message was already appended at line 207). -/
def processCalls (execF : String → RawParams → Envelope)
    (jsonLoads : String → Except String PyObj) :
    List ToolCallReq → List Message → Except (List Message) (List Message)
  | [], messages => Except.ok messages
  | call :: rest, messages =>
    match call.name with
    | none => processCalls execF jsonLoads rest messages
    | some nm =>
      if nm == "" then processCalls execF jsonLoads rest messages
      else
        let result := execF nm (parseCallArguments jsonLoads call.arguments)
        let messages1 := messages ++ [toolResponseMsg nm call.id result]
        if result.ok then processCalls execF jsonLoads rest messages1
        else
          match result.error with
          | some _ => processCalls execF jsonLoads rest messages1
          | none => Except.error messages1

/-- Whether executing one named request yields the envelope shape that
makes orchestrator.py line 212 raise `TypeError`: falsy `ok` together
with an `error` key holding `None`.  Skipped (unnamed) requests never
reach the check. -/
def callCrashes (execF : String → RawParams → Envelope)
    (jsonLoads : String → Except String PyObj) (c : ToolCallReq) : Bool :=
  match c.name with
  | none => false
  | some nm =>
    if nm == "" then false
    else
      !(execF nm (parseCallArguments jsonLoads c.arguments)).ok
        && ((execF nm (parseCallArguments jsonLoads c.arguments)).error).isNone

/-- The result of `Orchestrator.run`: `ok`, optional final `text`,
optional `error`, and the accumulated conversation. -/
structure RunResult where
  ok : Bool
  text : Option String := none
  error : Option String := none
  messages : List Message
deriving DecidableEq

/-- The iteration-exhaustion error message (orchestrator.py line 248). -/
def maxIterationsError (max_tool_iterations : Nat) : String :=
  "Max tool iterations (" ++ toString max_tool_iterations ++ ") reached without final answer"

/-- The `for iteration in range(self.max_tool_iterations)` loop of
`Orchestrator.run` (orchestrator.py lines 138-250), with `fuel`
iterations remaining.  The adapter is a function of the conversation
(images are a provider concern and carry no decision logic).  Each
iteration: call the adapter; an `error` key or an empty `choices` list
fails the run; a response with tool calls appends the raw assistant
message, processes the batch, and recurses; a response without tool
calls returns the final text (appended to history only when non-empty).
The iteration's `except Exception` clause (orchestrator.py lines
236-242) is reachable through the line-212 `TypeError` modelled in
`processCalls`; it returns `ok=False` with `str(e)` and the messages
accumulated so far. -/
def Orchestrator.runFrom (execF : String → RawParams → Envelope)
    (llm : List Message → LLMResponse)
    (jsonLoads : String → Except String PyObj)
    (max_tool_iterations : Nat) :
    Nat → List Message → RunResult
  | 0, messages =>
    { ok := false, error := some (maxIterationsError max_tool_iterations),
      messages := messages }
  | fuel + 1, messages =>
    let response := llm messages
    match response.error with
    | some e =>
      { ok := false, error := some ("LLM error: " ++ e), messages := messages }
    | none =>
      match response.choices with
      | [] =>
        { ok := false, error := some "No response choices from LLM", messages := messages }
      | m :: _ =>
        let calls := extractToolCalls m
        if calls.isEmpty then
          let text := m.content
          { ok := true, text := some text,
            messages := if text == "" then messages
              else messages ++ [{ role := "assistant", content := MsgContent.text text }] }
        else
          match processCalls execF jsonLoads calls (messages ++ [assistantRaw m]) with
          | Except.ok messages2 =>
            Orchestrator.runFrom execF llm jsonLoads max_tool_iterations fuel messages2
          | Except.error messages2 =>
            { ok := false, error := some noneTypeIterError, messages := messages2 }

/-- The remainder of one loop iteration after the raw assistant message
has been appended: process the batch, then either continue the loop on
the extended conversation or return the `except`-clause failure when
the line-212 `TypeError` fired.  This is exactly the tool-calls branch
of `Orchestrator.runFrom`. -/
def batchStep (execF : String → RawParams → Envelope)
    (llm : List Message → LLMResponse)
    (jsonLoads : String → Except String PyObj)
    (max_tool_iterations fuel : Nat) (calls : List ToolCallReq)
    (messages : List Message) : RunResult :=
  match processCalls execF jsonLoads calls messages with
  | Except.ok messages2 =>
    Orchestrator.runFrom execF llm jsonLoads max_tool_iterations fuel messages2
  | Except.error messages2 =>
    { ok := false, error := some noneTypeIterError, messages := messages2 }

/-- The conversation `Orchestrator.run` starts from (orchestrator.py
lines 121-133): an optional system message, then the user message. -/
def initialMessages (system_prompt : Option String) (prompt : String) : List Message :=
  (match system_prompt with
   | some sp => [{ role := "system", content := MsgContent.text sp }]
   | none => []) ++ [{ role := "user", content := MsgContent.text prompt }]

/-- Method `Orchestrator.run` (orchestrator.py lines 106-250). -/
def Orchestrator.run (execF : String → RawParams → Envelope)
    (llm : List Message → LLMResponse)
    (jsonLoads : String → Except String PyObj)
    (system_prompt : Option String) (max_tool_iterations : Nat)
    (prompt : String) : RunResult :=
  Orchestrator.runFrom execF llm jsonLoads max_tool_iterations max_tool_iterations
    (initialMessages system_prompt prompt)

/-! ## Helper lemmas -/

/-- If some denylist pattern matches the command, `check_command`
denies it (the first matching pattern wins). -/
lemma check_command_denied (pm : PermissionManager) (cmd : String)
    (h : ∃ p ∈ pm.denylist_patterns, p.search cmd = true) :
    (pm.check_command cmd).1 = false := by
  obtain ⟨p, hp, hs⟩ := h
  unfold PermissionManager.check_command
  cases hfind : pm.denylist_patterns.find? (fun q => q.search cmd) with
  | none =>
    rw [List.find?_eq_none] at hfind
    exact absurd hs (by simpa using hfind p hp)
  | some q => simp

/-- Evaluating `ToolExecutor.execute` on a name absent from the registry returns
the unknown-tool envelope, before arguments are even parsed. -/
lemma execute_unknown_tool (env : ExecEnv) (user : UserInput) (tool_name : String)
    (p : RawParams) (hreg : env.registry tool_name = none) :
    ToolExecutor.execute env user tool_name p =
      { ok := false, tool := tool_name, error := some ("Unknown tool: " ++ tool_name) } := by
  unfold ToolExecutor.execute
  rw [hreg]

/-- The tool-role message the per-call loop produces for one request,
or `none` when the request is skipped for a missing or empty name. -/
def callToolMsg (execF : String → RawParams → Envelope)
    (jsonLoads : String → Except String PyObj) (c : ToolCallReq) : Option Message :=
  match c.name with
  | none => none
  | some nm =>
    if nm == "" then none
    else some (toolResponseMsg nm c.id
      (execF nm (parseCallArguments jsonLoads c.arguments)))

/-- Unfolding step: a request with a missing name is skipped. -/
lemma processCalls_cons_none {execF : String → RawParams → Envelope}
    {jsonLoads : String → Except String PyObj} {call : ToolCallReq}
    {rest : List ToolCallReq} {messages : List Message}
    (hn : call.name = none) :
    processCalls execF jsonLoads (call :: rest) messages
      = processCalls execF jsonLoads rest messages := by
  conv_lhs => rw [processCalls]
  rw [hn]

/-- Unfolding step: a request with an empty name is skipped. -/
lemma processCalls_cons_blank {execF : String → RawParams → Envelope}
    {jsonLoads : String → Except String PyObj} {call : ToolCallReq}
    {rest : List ToolCallReq} {messages : List Message} {nm : String}
    (hn : call.name = some nm) (he : (nm == "") = true) :
    processCalls execF jsonLoads (call :: rest) messages
      = processCalls execF jsonLoads rest messages := by
  conv_lhs => rw [processCalls]
  rw [hn]
  simp [he]

/-- Unfolding step: a named request is executed, its tool message is
appended, and the line-212 check either continues or raises. -/
lemma processCalls_cons_exec {execF : String → RawParams → Envelope}
    {jsonLoads : String → Except String PyObj} {call : ToolCallReq}
    {rest : List ToolCallReq} {messages : List Message} {nm : String}
    (hn : call.name = some nm) (he : (nm == "") = false) :
    processCalls execF jsonLoads (call :: rest) messages
      = (if (execF nm (parseCallArguments jsonLoads call.arguments)).ok then
          processCalls execF jsonLoads rest
            (messages ++ [toolResponseMsg nm call.id
              (execF nm (parseCallArguments jsonLoads call.arguments))])
        else
          match (execF nm (parseCallArguments jsonLoads call.arguments)).error with
          | some _ =>
            processCalls execF jsonLoads rest
              (messages ++ [toolResponseMsg nm call.id
                (execF nm (parseCallArguments jsonLoads call.arguments))])
          | none =>
            Except.error (messages ++ [toolResponseMsg nm call.id
              (execF nm (parseCallArguments jsonLoads call.arguments))])) := by
  conv_lhs => rw [processCalls]
  rw [hn]
  simp [he]

/-- Removing a request with a missing or empty name from anywhere in a
batch does not change the outcome of processing it: the skipped request
appends nothing, consults no executor, and the crash behaviour of the
other requests is unchanged. -/
lemma processCalls_skip_middle (execF : String → RawParams → Envelope)
    (jsonLoads : String → Except String PyObj) (c : ToolCallReq)
    (hname : c.name = none ∨ c.name = some "") :
    ∀ (pre rest : List ToolCallReq) (messages : List Message),
      processCalls execF jsonLoads (pre ++ c :: rest) messages
        = processCalls execF jsonLoads (pre ++ rest) messages := by
  intro pre
  induction pre with
  | nil =>
    intro rest messages
    rcases hname with h | h
    · exact processCalls_cons_none h
    · exact processCalls_cons_blank h rfl
  | cons p pre ih =>
    intro rest messages
    simp only [List.cons_append]
    cases hp : p.name with
    | none =>
      rw [processCalls_cons_none hp, processCalls_cons_none hp]
      exact ih rest messages
    | some nm =>
      cases he : (nm == "") with
      | true =>
        rw [processCalls_cons_blank hp he, processCalls_cons_blank hp he]
        exact ih rest messages
      | false =>
        rw [processCalls_cons_exec hp he, processCalls_cons_exec hp he]
        cases hok : (execF nm (parseCallArguments jsonLoads p.arguments)).ok with
        | true => simp only [hok, if_true]; exact ih rest _
        | false =>
          simp only [hok, Bool.false_eq_true, if_false]
          cases herr : (execF nm (parseCallArguments jsonLoads p.arguments)).error with
          | none => rfl
          | some e => exact ih rest _

/-- When no request of the batch produces the crashing envelope shape,
the per-call loop completes and appends exactly one tool-role message
per named request, in request order, and nothing for skipped ones. -/
lemma processCalls_ok_eq (execF : String → RawParams → Envelope)
    (jsonLoads : String → Except String PyObj) (calls : List ToolCallReq)
    (hsafe : ∀ c ∈ calls, callCrashes execF jsonLoads c = false) :
    ∀ messages, processCalls execF jsonLoads calls messages
      = Except.ok (messages ++ calls.filterMap (callToolMsg execF jsonLoads)) := by
  induction calls with
  | nil => intro messages; simp [processCalls]
  | cons call rest ih =>
    have hrest : ∀ c ∈ rest, callCrashes execF jsonLoads c = false := by
      intro c hc
      exact hsafe c (List.mem_cons_of_mem call hc)
    have hcall : callCrashes execF jsonLoads call = false :=
      hsafe call (List.mem_cons_self call rest)
    intro messages
    cases hn : call.name with
    | none =>
      rw [processCalls_cons_none hn, ih hrest]
      simp [List.filterMap_cons, callToolMsg, hn]
    | some nm =>
      cases he : (nm == "") with
      | true =>
        rw [processCalls_cons_blank hn he, ih hrest]
        simp [List.filterMap_cons, callToolMsg, hn, he]
      | false =>
        rw [processCalls_cons_exec hn he]
        unfold callCrashes at hcall
        rw [hn] at hcall
        simp only [he, Bool.false_eq_true, if_false, Bool.and_eq_false_iff,
          Bool.not_eq_false'] at hcall
        cases hok : (execF nm (parseCallArguments jsonLoads call.arguments)).ok with
        | true =>
          simp only [hok, if_true]
          rw [ih hrest]
          simp [List.filterMap_cons, callToolMsg, hn, he]
        | false =>
          rcases hcall with hcall | hcall
          · exact absurd hok (by simp [hcall])
          · cases herr : (execF nm (parseCallArguments jsonLoads call.arguments)).error with
            | none => rw [herr] at hcall; simp at hcall
            | some e =>
              simp only [hok, Bool.false_eq_true, if_false, herr]
              rw [ih hrest]
              simp [List.filterMap_cons, callToolMsg, hn, he]

/-- One loop iteration on a response that carries tool calls: append
the raw assistant message, then the iteration is the batch step (which
either continues the loop or fails the run on the line-212 fault). -/
lemma runFrom_toolcalls_step
    {execF : String → RawParams → Envelope} {llm : List Message → LLMResponse}
    {jsonLoads : String → Except String PyObj} {maxIters fuel : Nat}
    {messages : List Message} {m : AssistantMessage} {ms : List AssistantMessage}
    (hllm : llm messages = { error := none, choices := m :: ms })
    (hcalls : (extractToolCalls m).isEmpty = false) :
    Orchestrator.runFrom execF llm jsonLoads maxIters (fuel + 1) messages
      = batchStep execF llm jsonLoads maxIters fuel (extractToolCalls m)
          (messages ++ [assistantRaw m]) := by
  conv_lhs => rw [Orchestrator.runFrom]
  rw [hllm]
  simp [hcalls, batchStep]

/-! ## Fixtures for witnesses and counterexamples -/

/-- A concrete compiled denylist pattern: matches exactly `rm -rf /`. -/
def wDenyPattern : Pattern :=
  { pattern := "rm -rf", search := fun s => s == "rm -rf /" }

/-- A permission manager in `auto` trust with one denylist pattern. -/
def wPmAuto : PermissionManager :=
  { trust_level := TrustLevel.AUTO
    denylist_patterns := [wDenyPattern]
    allowlist_patterns := [] }

/-- A safe read-only tool whose implementation succeeds. -/
def wInfoTool : ToolSchema :=
  { name := "get_system_info"
    description := "Get system information"
    validateParams := fun _ => (true, "")
    risk_level := RiskLevel.SAFE
    handler := fun _ => HandlerResult.ok { success := some true } }

/-- A destructive tool (the underlying delete implementation). -/
def wDeleteTool : ToolSchema :=
  { name := "delete_file"
    description := "Delete a file"
    validateParams := fun _ => (true, "")
    risk_level := RiskLevel.DESTRUCTIVE
    handler := fun _ => HandlerResult.ok { success := some true } }

/-- A safe tool whose implementation raises an exception. -/
def wFailTool : ToolSchema :=
  { name := "search_web"
    description := "Search the web"
    validateParams := fun _ => (true, "")
    risk_level := RiskLevel.SAFE
    handler := fun _ => HandlerResult.exn "connection timed out" }

/-- A concrete registry holding the three fixture tools. -/
def wRegistry : String → Option ToolSchema := fun n =>
  if n == "get_system_info" then some wInfoTool
  else if n == "delete_file" then some wDeleteTool
  else if n == "search_web" then some wFailTool
  else none

/-- Semantics of `json.loads` on the strings the fixtures use: none of
them is valid JSON, so decoding always fails (as Python does on the
empty string and on `not json`). -/
def wJsonLoads : String → Except String PyObj := fun _ =>
  Except.error "Expecting value: line 1 column 1 (char 0)"

/-- Executor environment under `interactive` trust. -/
def wEnvInteractive : ExecEnv :=
  { registry := wRegistry
    pm := { trust_level := TrustLevel.INTERACTIVE
            denylist_patterns := [], allowlist_patterns := [] }
    jsonLoads := wJsonLoads }

/-- Executor environment under `safe-only` trust. -/
def wEnvSafeOnly : ExecEnv :=
  { registry := wRegistry
    pm := { trust_level := TrustLevel.SAFE_ONLY
            denylist_patterns := [], allowlist_patterns := [] }
    jsonLoads := wJsonLoads }

/-- An assistant message requesting two tool calls: first an unknown
tool `ghost_tool`, then the registered `get_system_info`. -/
def wAssistantBatchMsg : AssistantMessage :=
  { content := ""
    tool_calls :=
      [ { id := some "call_1"
          function := { name := some "ghost_tool", arguments := none } },
        { id := some "call_2"
          function := { name := some "get_system_info"
                        arguments := some (RawParams.dict []) } } ] }

/-- An adapter that always answers with the two-call batch above. -/
def wLlmBatch : List Message → LLMResponse := fun _ =>
  { error := none, choices := [wAssistantBatchMsg] }

/-- An assistant message whose first tool call has no name. -/
def wAssistantSkipMsg : AssistantMessage :=
  { content := ""
    tool_calls :=
      [ { id := none, function := {} },
        { id := some "call_2"
          function := { name := some "get_system_info"
                        arguments := some (RawParams.dict []) } } ] }

/-- An adapter that always answers with the unnamed-call batch above. -/
def wLlmSkip : List Message → LLMResponse := fun _ =>
  { error := none, choices := [wAssistantSkipMsg] }

/-- An adapter whose response carries a transport error. -/
def wLlmErr : List Message → LLMResponse := fun _ =>
  { error := some "connection refused", choices := [] }

/-- A tool mirroring `execute_command` bound to
`shell_client.execute_shell_command` when the shell command fails: the
implementation returns `success=False` with no `error` key. -/
def wShellFailTool : ToolSchema :=
  { name := "execute_command"
    description := "Run a shell command"
    validateParams := fun _ => (true, "")
    risk_level := RiskLevel.DESTRUCTIVE
    handler := fun _ => HandlerResult.ok { success := some false } }

/-- A registry holding the failing shell tool and the info tool. -/
def wCrashRegistry : String → Option ToolSchema := fun n =>
  if n == "get_system_info" then some wInfoTool
  else if n == "execute_command" then some wShellFailTool
  else none

/-- Executor environment under `auto` trust (no prompting) over the
crash registry. -/
def wEnvAuto : ExecEnv :=
  { registry := wCrashRegistry
    pm := { trust_level := TrustLevel.AUTO
            denylist_patterns := [], allowlist_patterns := [] }
    jsonLoads := wJsonLoads }

/-- An assistant message requesting the unknown `ghost_tool` and then a
shell command that will fail (envelope `ok=False`, `error=None`). -/
def wAssistantCrashMsg : AssistantMessage :=
  { content := ""
    tool_calls :=
      [ { id := some "call_1"
          function := { name := some "ghost_tool", arguments := none } },
        { id := some "call_2"
          function := { name := some "execute_command"
                        arguments := some (RawParams.dict [("command", "false")]) } } ] }

/-- An adapter that always answers with the crashing batch above. -/
def wLlmCrash : List Message → LLMResponse := fun _ =>
  { error := none, choices := [wAssistantCrashMsg] }

/-- An assistant message whose first request has no name, followed by
the failing shell command and then the info tool. -/
def wAssistantSkipCrashMsg : AssistantMessage :=
  { content := ""
    tool_calls :=
      [ { id := none, function := {} },
        { id := some "call_2"
          function := { name := some "execute_command"
                        arguments := some (RawParams.dict [("command", "false")]) } },
        { id := some "call_3"
          function := { name := some "get_system_info"
                        arguments := some (RawParams.dict []) } } ] }

/-- An adapter that always answers with the skip-then-crash batch. -/
def wLlmSkipCrash : List Message → LLMResponse := fun _ =>
  { error := none, choices := [wAssistantSkipCrashMsg] }

/-! ## Claims -/

/-- Claim C1: For every trust level and every `execute_command` call
whose command matches a deny-list pattern, `check_and_confirm` can
return `True` only when the user answered the strong (type-YES) prompt
affirmatively: the user submitted text whose stripped form is one of
`YES`/`yes`/`Yes`.  In particular no deny-listed command resolves to
allowed without strong confirmation, even under `auto` trust. -/
theorem C1_denylist_forces_strong_confirmation
    (pm : PermissionManager) (user : UserInput) (risk_level : RiskLevel)
    (params : Params) (cmd : String) (description : String)
    (hcmd : List.lookup "command" params = some cmd)
    (hdeny : ∃ p ∈ pm.denylist_patterns, p.search cmd = true)
    (hallow : check_and_confirm pm user "execute_command" risk_level params
      description = true) :
    ∃ s, user = UserInput.text s ∧ ["YES", "yes", "Yes"].contains (pyStrip s) = true := by
  have hcc : (pm.check_command cmd).1 = false := check_command_denied pm cmd hdeny
  have hreason : commandDenyReason pm "execute_command" params
      = some (pm.check_command cmd).2 := by
    simp [commandDenyReason, hcmd, hcc]
  unfold check_and_confirm at hallow
  rw [hreason] at hallow
  have hprompt : ∃ d, prompt_confirmation "execute_command" params "yes" d user = true := by
    by_cases h : pm.trust_level = TrustLevel.AUTO
    · exact ⟨description, by simpa [h] using hallow⟩
    · exact ⟨_, by simpa [h] using hallow⟩
  obtain ⟨d, hp⟩ := hprompt
  cases user with
  | interrupt => simp [prompt_confirmation] at hp
  | text s =>
    refine ⟨s, rfl, ?_⟩
    simpa [prompt_confirmation, yesValidatorOk] using hp

/-- Witness for C1: the command `rm -rf /` matches the denylist, and
with the user typing `YES` under `auto` trust, `check_and_confirm`
returns `True`; the theorem then yields the affirmative strong answer. -/
theorem C1_denylist_forces_strong_confirmation_witness :
    List.lookup "command" [("command", "rm -rf /")] = some "rm -rf /" ∧
    (∃ p ∈ wPmAuto.denylist_patterns, p.search "rm -rf /" = true) ∧
    check_and_confirm wPmAuto (UserInput.text "YES") "execute_command"
      RiskLevel.DESTRUCTIVE [("command", "rm -rf /")] "" = true ∧
    (∃ s, UserInput.text "YES" = UserInput.text s ∧
      ["YES", "yes", "Yes"].contains (pyStrip s) = true) := by
  refine ⟨rfl, ⟨wDenyPattern, by simp [wPmAuto], rfl⟩, by decide, ?_⟩
  exact C1_denylist_forces_strong_confirmation wPmAuto (UserInput.text "YES")
    RiskLevel.DESTRUCTIVE [("command", "rm -rf /")] "rm -rf /" "" rfl
    ⟨wDenyPattern, by simp [wPmAuto], rfl⟩ (by decide)

/-- Counterexample to claim C2: In the `yn` (Simple) confirmation mode the
input `sure` is not an explicit negative, yet the code refuses it —
refuting the claim that any input other than an explicit negative is
treated as acceptance. -/
theorem C2_arbitrary_input_refused :
    prompt_confirmation "write_file" [("path", "notes.txt")] "yn" ""
      (UserInput.text "sure") = false := by
  decide

/-- Claim C2 as amended: In Simple (`yn`) confirmation mode the prompt
defaults to yes (an empty submission accepts), and an input is treated
as acceptance exactly when it strips and lowercases to `y`, `yes`, or
the empty string; every other input — including arbitrary non-negative
strings — and a keyboard interrupt are refusals. -/
theorem C2_simple_confirmation_accepts_exactly_y_yes_empty
    (tool_name : String) (params : Params) (description : String) (user : UserInput) :
    prompt_confirmation tool_name params "yn" description user =
      match user with
      | UserInput.text s => ["y", "yes", ""].contains (pyLower (pyStrip s))
      | UserInput.interrupt => false := by
  cases user <;> rfl

/-- Counterexample to claim C3: In the `yes` (Strong) confirmation mode the
case variant `yES` of the confirmation phrase is refused — refuting the
claim that the comparison is case-insensitive with every case variant
accepted. -/
theorem C3_case_variant_refused :
    prompt_confirmation "delete_file" [("path", "notes.txt")] "yes" ""
      (UserInput.text "yES") = false := by
  decide

/-- Claim C3 as amended: In Strong (`yes`) confirmation mode an input is
accepted exactly when its stripped form is one of the three spellings
`YES`, `yes`, `Yes`; any other input — including the empty string and
other case variants such as `yES` — and a keyboard interrupt are
refusals. -/
theorem C3_strong_confirmation_accepts_exactly_three_spellings
    (tool_name : String) (params : Params) (description : String) (user : UserInput) :
    prompt_confirmation tool_name params "yes" description user =
      match user with
      | UserInput.text s => ["YES", "yes", "Yes"].contains (pyStrip s)
      | UserInput.interrupt => false := by
  cases user with
  | interrupt => rfl
  | text s => simp [prompt_confirmation, yesValidatorOk]

/-- Claim C4: Under `safe-only` trust, a registered tool whose risk level
is not `Safe` (and whose call is not short-circuited by the
`execute_command` deny-list rule) is blocked: `execute` returns
`ok=false` with the permission-denied error.  The conclusion holds for
every `user` and every bound `handler`, so no prompt is consulted and
the implementation is never invoked. -/
theorem C4_safe_only_blocks_non_safe
    (env : ExecEnv) (user : UserInput) (tool_name : String) (tool : ToolSchema)
    (d : Params)
    (hreg : env.registry tool_name = some tool)
    (hrisk : tool.risk_level ≠ RiskLevel.SAFE)
    (htrust : env.pm.trust_level = TrustLevel.SAFE_ONLY)
    (hdeny : commandDenyReason env.pm tool_name d = none)
    (hvalid : (tool.validateParams d).1 = true) :
    ToolExecutor.execute env user tool_name (RawParams.dict d) =
      { ok := false, tool := tool_name, input := some d,
        error := some "Permission denied by user" } := by
  have h1 : requires_confirmation env.pm.trust_level tool.risk_level tool_name d
      = (true, "block") := by
    rw [htrust]
    unfold requires_confirmation
    simp [hrisk]
  have hconf : check_and_confirm env.pm user tool_name tool.risk_level d
      tool.description = false := by
    unfold check_and_confirm
    rw [hdeny]
    simp [h1, prompt_confirmation]
  unfold ToolExecutor.execute
  rw [hreg]
  simp [hvalid, hconf]

/-- Witness for C4: `delete_file` (risk `Destructive`) under `safe-only`
trust is refused with the permission-denied envelope. -/
theorem C4_safe_only_blocks_non_safe_witness :
    wEnvSafeOnly.registry "delete_file" = some wDeleteTool ∧
    wDeleteTool.risk_level ≠ RiskLevel.SAFE ∧
    wEnvSafeOnly.pm.trust_level = TrustLevel.SAFE_ONLY ∧
    commandDenyReason wEnvSafeOnly.pm "delete_file" [("path", "a.txt")] = none ∧
    (wDeleteTool.validateParams [("path", "a.txt")]).1 = true ∧
    ToolExecutor.execute wEnvSafeOnly (UserInput.text "yes") "delete_file"
      (RawParams.dict [("path", "a.txt")]) =
      { ok := false, tool := "delete_file", input := some [("path", "a.txt")],
        error := some "Permission denied by user" } := by
  refine ⟨rfl, by decide, rfl, by decide, rfl, ?_⟩
  exact C4_safe_only_blocks_non_safe wEnvSafeOnly (UserInput.text "yes")
    "delete_file" wDeleteTool [("path", "a.txt")] rfl (by decide) rfl (by decide) rfl

/-- Counterexample to claim C5: The empty string is not valid JSON (its
decode fails), yet `execute` on raw string arguments `""` does not
return a parse error: the blank string is treated as an empty mapping
and the bound implementation runs to a successful envelope. -/
theorem C5_blank_string_invokes_handler :
    wEnvInteractive.jsonLoads "" = Except.error "Expecting value: line 1 column 1 (char 0)" ∧
    ToolExecutor.execute wEnvInteractive UserInput.interrupt "get_system_info"
      (RawParams.str "") =
      { ok := true, tool := "get_system_info", input := some [],
        result := some { ok := some true, success := some true }, error := none } := by
  exact ⟨rfl, by decide⟩

/-- Claim C5 as amended: For every tool call whose raw arguments arrive as
a *non-blank* string that is not valid JSON, the outcome is a
tool-result error: `ok=false` with the parse-error message, returned
(not thrown), for every `user` and every bound `handler` — so the
implementation is not invoked.  (A blank string is instead treated as an
empty argument mapping.) -/
theorem C5_nonblank_invalid_json_is_parse_error
    (env : ExecEnv) (user : UserInput) (tool_name : String) (tool : ToolSchema)
    (s e : String)
    (hreg : env.registry tool_name = some tool)
    (hblank : pyStrip s ≠ "")
    (hjson : env.jsonLoads s = Except.error e) :
    ToolExecutor.execute env user tool_name (RawParams.str s) =
      { ok := false, tool := tool_name,
        error := some ("Invalid JSON arguments: " ++ e) } := by
  have hb : (pyStrip s == "") = false := beq_eq_false_iff_ne.mpr hblank
  unfold ToolExecutor.execute
  rw [hreg]
  simp [hb, hjson]

/-- Witness for C5 (amended): the non-blank string `not json` fails to
decode, and `execute` returns the parse-error envelope. -/
theorem C5_nonblank_invalid_json_is_parse_error_witness :
    wEnvInteractive.registry "get_system_info" = some wInfoTool ∧
    pyStrip "not json" ≠ "" ∧
    wEnvInteractive.jsonLoads "not json" = Except.error "Expecting value: line 1 column 1 (char 0)" ∧
    ToolExecutor.execute wEnvInteractive UserInput.interrupt "get_system_info"
      (RawParams.str "not json") =
      { ok := false, tool := "get_system_info",
        error := some ("Invalid JSON arguments: " ++
          "Expecting value: line 1 column 1 (char 0)") } := by
  refine ⟨rfl, by decide, rfl, ?_⟩
  exact C5_nonblank_invalid_json_is_parse_error wEnvInteractive UserInput.interrupt
    "get_system_info" wInfoTool "not json" "Expecting value: line 1 column 1 (char 0)"
    rfl (by decide) rfl

/-- Claim C7: For every registered tool, validated arguments and granted
permission, an exception raised by the bound implementation is caught
and converted into an `ok=false` envelope carrying the exception's
message; `execute` (a total function in this embedding) never
propagates the fault. -/
theorem C7_handler_exception_converted
    (env : ExecEnv) (user : UserInput) (tool_name : String) (tool : ToolSchema)
    (d : Params) (e : String)
    (hreg : env.registry tool_name = some tool)
    (hvalid : (tool.validateParams d).1 = true)
    (hperm : check_and_confirm env.pm user tool_name tool.risk_level d
      tool.description = true)
    (hexn : tool.handler d = HandlerResult.exn e) :
    ToolExecutor.execute env user tool_name (RawParams.dict d) =
      { ok := false, tool := tool_name, input := some d, error := some e } := by
  unfold ToolExecutor.execute
  rw [hreg]
  simp [hvalid, hperm, hexn]

/-- Witness for C7: `search_web`'s implementation raises
`connection timed out`, and `execute` returns that message in an
`ok=false` envelope. -/
theorem C7_handler_exception_converted_witness :
    wEnvInteractive.registry "search_web" = some wFailTool ∧
    (wFailTool.validateParams [("query", "lean")]).1 = true ∧
    check_and_confirm wEnvInteractive.pm UserInput.interrupt "search_web"
      wFailTool.risk_level [("query", "lean")] wFailTool.description = true ∧
    wFailTool.handler [("query", "lean")] = HandlerResult.exn "connection timed out" ∧
    ToolExecutor.execute wEnvInteractive UserInput.interrupt "search_web"
      (RawParams.dict [("query", "lean")]) =
      { ok := false, tool := "search_web", input := some [("query", "lean")],
        error := some "connection timed out" } := by
  refine ⟨rfl, rfl, by decide, rfl, ?_⟩
  exact C7_handler_exception_converted wEnvInteractive UserInput.interrupt
    "search_web" wFailTool [("query", "lean")] "connection timed out"
    rfl rfl (by decide) rfl

/-- Counterexample to claim C6: a batch requesting the unknown
`ghost_tool` and then a failing shell command does not continue to the
next model iteration — both error envelopes are appended, but the
second one has falsy `ok` with `error=None`, so the line-212 check
raises `TypeError` and the run terminates with that exception's
message, even though iterations remained. -/
theorem C6_batch_crash_terminates_run :
    wEnvAuto.registry "ghost_tool" = none ∧
    extractToolCalls wAssistantCrashMsg =
      [{ id := some "call_1", name := some "ghost_tool", arguments := none },
       { id := some "call_2", name := some "execute_command",
         arguments := some (RawParams.dict [("command", "false")]) }] ∧
    Orchestrator.runFrom (ToolExecutor.execute wEnvAuto UserInput.interrupt)
        wLlmCrash wEnvAuto.jsonLoads 6 2 []
      = { ok := false, text := none, error := some noneTypeIterError,
          messages :=
            [assistantRaw wAssistantCrashMsg,
             toolResponseMsg "ghost_tool" (some "call_1")
               { ok := false, tool := "ghost_tool",
                 error := some "Unknown tool: ghost_tool" },
             toolResponseMsg "execute_command" (some "call_2")
               { ok := false, tool := "execute_command",
                 input := some [("command", "false")],
                 result := some { ok := some false, success := some false },
                 error := none }] } := by
  exact ⟨rfl, rfl, by decide⟩

/-- Claim C6 as amended: a request naming an unknown tool never itself
aborts the batch — its envelope carries an error string, so the
line-212 check only logs — and, provided no other executed request of
the batch yields an envelope with falsy `ok` and a `None` error (which
would raise `TypeError` at that check and terminate the run), the
unknown-tool error envelope is appended in batch position, the
remaining requests are still executed in order after it, and the loop
continues to the next model iteration. -/
theorem C6_unknown_tool_continues
    (env : ExecEnv) (user : UserInput) (llm : List Message → LLMResponse)
    (maxIters fuel : Nat) (messages : List Message) (m : AssistantMessage)
    (ms : List AssistantMessage) (pre rest : List ToolCallReq) (c : ToolCallReq)
    (nm : String)
    (hllm : llm messages = { error := none, choices := m :: ms })
    (hext : extractToolCalls m = pre ++ c :: rest)
    (hname : c.name = some nm)
    (hne : nm ≠ "")
    (hunk : env.registry nm = none)
    (hsafe : ∀ c' ∈ pre ++ rest,
      callCrashes (ToolExecutor.execute env user) env.jsonLoads c' = false) :
    callCrashes (ToolExecutor.execute env user) env.jsonLoads c = false ∧
    Orchestrator.runFrom (ToolExecutor.execute env user) llm env.jsonLoads maxIters
        (fuel + 1) messages
      = Orchestrator.runFrom (ToolExecutor.execute env user) llm env.jsonLoads maxIters
          fuel
          ((messages ++ [assistantRaw m])
            ++ pre.filterMap (callToolMsg (ToolExecutor.execute env user) env.jsonLoads)
            ++ [toolResponseMsg nm c.id
                { ok := false, tool := nm, error := some ("Unknown tool: " ++ nm) }]
            ++ rest.filterMap (callToolMsg (ToolExecutor.execute env user) env.jsonLoads)) := by
  have hne' : (nm == "") = false := beq_eq_false_iff_ne.mpr hne
  have hcnc : callCrashes (ToolExecutor.execute env user) env.jsonLoads c = false := by
    unfold callCrashes
    rw [hname]
    simp only [hne', Bool.false_eq_true, if_false]
    rw [execute_unknown_tool env user nm _ hunk]
    rfl
  refine ⟨hcnc, ?_⟩
  have hcalls : (extractToolCalls m).isEmpty = false := by
    rw [hext]; cases pre <;> simp
  have hall : ∀ c' ∈ pre ++ c :: rest,
      callCrashes (ToolExecutor.execute env user) env.jsonLoads c' = false := by
    intro x hx
    rcases List.mem_append.mp hx with h | h
    · exact hsafe x (List.mem_append.mpr (Or.inl h))
    · rcases List.mem_cons.mp h with h | h
      · rw [h]; exact hcnc
      · exact hsafe x (List.mem_append.mpr (Or.inr h))
  rw [runFrom_toolcalls_step hllm hcalls, hext]
  unfold batchStep
  rw [processCalls_ok_eq _ _ _ hall]
  have hc : callToolMsg (ToolExecutor.execute env user) env.jsonLoads c
      = some (toolResponseMsg nm c.id
        { ok := false, tool := nm, error := some ("Unknown tool: " ++ nm) }) := by
    rw [callToolMsg, hname]
    simp only [hne', Bool.false_eq_true, if_false]
    rw [execute_unknown_tool env user nm _ hunk]
  simp [List.filterMap_append, List.filterMap_cons, hc, List.append_assoc]

/-- Witness for C6 as amended: a batch requesting the unknown
`ghost_tool` and then `get_system_info` (whose envelope is `ok=True`,
hence non-crashing) continues to the next iteration with the
unknown-tool envelope appended and the second call still executed
after it. -/
theorem C6_unknown_tool_continues_witness :
    wLlmBatch [] = { error := none, choices := [wAssistantBatchMsg] } ∧
    extractToolCalls wAssistantBatchMsg =
      [] ++ ({ id := some "call_1", name := some "ghost_tool", arguments := none } ::
        [{ id := some "call_2", name := some "get_system_info",
           arguments := some (RawParams.dict []) }]) ∧
    ({ id := some "call_1", name := some "ghost_tool",
       arguments := none } : ToolCallReq).name = some "ghost_tool" ∧
    "ghost_tool" ≠ "" ∧
    wEnvInteractive.registry "ghost_tool" = none ∧
    (∀ c' ∈ ([] : List ToolCallReq) ++
        [{ id := some "call_2", name := some "get_system_info",
           arguments := some (RawParams.dict []) }],
      callCrashes (ToolExecutor.execute wEnvInteractive UserInput.interrupt)
        wEnvInteractive.jsonLoads c' = false) ∧
    Orchestrator.runFrom (ToolExecutor.execute wEnvInteractive UserInput.interrupt)
        wLlmBatch wEnvInteractive.jsonLoads 6 (1 + 1) []
      = Orchestrator.runFrom (ToolExecutor.execute wEnvInteractive UserInput.interrupt)
          wLlmBatch wEnvInteractive.jsonLoads 6 1
          (([] ++ [assistantRaw wAssistantBatchMsg])
            ++ List.filterMap (callToolMsg
                (ToolExecutor.execute wEnvInteractive UserInput.interrupt)
                wEnvInteractive.jsonLoads) []
            ++ [toolResponseMsg "ghost_tool" (some "call_1")
                { ok := false, tool := "ghost_tool",
                  error := some ("Unknown tool: " ++ "ghost_tool") }]
            ++ List.filterMap (callToolMsg
                (ToolExecutor.execute wEnvInteractive UserInput.interrupt)
                wEnvInteractive.jsonLoads)
                [{ id := some "call_2", name := some "get_system_info",
                   arguments := some (RawParams.dict []) }]) := by
  refine ⟨rfl, rfl, rfl, by decide, rfl, by decide, ?_⟩
  exact (C6_unknown_tool_continues wEnvInteractive UserInput.interrupt wLlmBatch 6 1 []
    wAssistantBatchMsg [] []
    [{ id := some "call_2", name := some "get_system_info",
       arguments := some (RawParams.dict []) }]
    { id := some "call_1", name := some "ghost_tool", arguments := none }
    "ghost_tool" rfl rfl rfl (by decide) rfl (by decide)).2

/-- Counterexample to claim C8: With a transport error `connection refused`,
the run's `error` field is `LLM error: connection refused`, not the
transport error verbatim — refuting the claim that the error is
surfaced verbatim *as* the error field. -/
theorem C8_error_field_not_verbatim :
    (Orchestrator.run (ToolExecutor.execute wEnvInteractive UserInput.interrupt)
        wLlmErr wJsonLoads none 6 "hi").error
      = some "LLM error: connection refused" ∧
    (Orchestrator.run (ToolExecutor.execute wEnvInteractive UserInput.interrupt)
        wLlmErr wJsonLoads none 6 "hi").error
      ≠ some "connection refused" := by
  exact ⟨rfl, by decide⟩

/-- Claim C8 as amended: whenever the adapter's response contains an
error — at whichever loop iteration it occurs, over whatever
conversation has been accumulated by then — the run immediately returns
`ok=false` with the error field equal to the transport error prefixed
by `LLM error: ` (the transport error text itself embedded verbatim),
together with the messages accumulated so far.  `Orchestrator.run`
delegates every iteration (the first included, with
`messages = initialMessages system_prompt prompt` and
`fuel + 1 = max_tool_iterations`) to this loop. -/
theorem C8_transport_error_fails_run
    (execF : String → RawParams → Envelope) (llm : List Message → LLMResponse)
    (jsonLoads : String → Except String PyObj) (maxIters fuel : Nat)
    (messages : List Message) (e : String) (cs : List AssistantMessage)
    (hllm : llm messages = { error := some e, choices := cs }) :
    Orchestrator.runFrom execF llm jsonLoads maxIters (fuel + 1) messages =
      { ok := false, text := none, error := some ("LLM error: " ++ e),
        messages := messages } := by
  conv_lhs => rw [Orchestrator.runFrom]
  rw [hllm]

/-- Witness for C8 as amended: mid-run (two iterations already spent,
a prior tool round in the conversation), the erroring adapter fails the
run immediately with the prefixed message and the accumulated history. -/
theorem C8_transport_error_fails_run_witness :
    wLlmErr (initialMessages none "hi" ++ [assistantRaw wAssistantBatchMsg])
      = { error := some "connection refused", choices := [] } ∧
    Orchestrator.runFrom (ToolExecutor.execute wEnvInteractive UserInput.interrupt)
        wLlmErr wJsonLoads 6 (3 + 1)
        (initialMessages none "hi" ++ [assistantRaw wAssistantBatchMsg]) =
      { ok := false, text := none, error := some ("LLM error: " ++ "connection refused"),
        messages := initialMessages none "hi" ++ [assistantRaw wAssistantBatchMsg] } := by
  refine ⟨rfl, ?_⟩
  exact C8_transport_error_fails_run
    (ToolExecutor.execute wEnvInteractive UserInput.interrupt) wLlmErr wJsonLoads
    6 3 (initialMessages none "hi" ++ [assistantRaw wAssistantBatchMsg])
    "connection refused" [] rfl

/-- Claim C9: With `max_tool_iterations = 0`, `run()` terminates
immediately with the iteration-exhaustion error, for every adapter —
the right-hand side does not depend on `llm`, so the model adapter is
never called — returning only the initial conversation. -/
theorem C9_zero_iterations_immediate_exhaustion
    (execF : String → RawParams → Envelope) (llm : List Message → LLMResponse)
    (jsonLoads : String → Except String PyObj) (system_prompt : Option String)
    (prompt : String) :
    Orchestrator.run execF llm jsonLoads system_prompt 0 prompt =
      { ok := false, text := none,
        error := some "Max tool iterations (0) reached without final answer",
        messages := initialMessages system_prompt prompt } := by
  rfl

/-- Counterexample to claim C10: in the batch whose first request is
unnamed, followed by a failing shell command and then `get_system_info`,
the unnamed request is skipped but the remaining requests are *not* all
executed: the shell command's envelope (falsy `ok`, `error=None`)
raises the line-212 `TypeError` and the run terminates with no
tool-role message for `get_system_info`. -/
theorem C10_later_request_lost_on_crash :
    extractToolCalls wAssistantSkipCrashMsg =
      [{ id := none, name := none, arguments := none },
       { id := some "call_2", name := some "execute_command",
         arguments := some (RawParams.dict [("command", "false")]) },
       { id := some "call_3", name := some "get_system_info",
         arguments := some (RawParams.dict []) }] ∧
    Orchestrator.runFrom (ToolExecutor.execute wEnvAuto UserInput.interrupt)
        wLlmSkipCrash wEnvAuto.jsonLoads 6 2 []
      = { ok := false, text := none, error := some noneTypeIterError,
          messages :=
            [assistantRaw wAssistantSkipCrashMsg,
             toolResponseMsg "execute_command" (some "call_2")
               { ok := false, tool := "execute_command",
                 input := some [("command", "false")],
                 result := some { ok := some false, success := some false },
                 error := none }] } := by
  exact ⟨rfl, by decide⟩

/-- Claim C10 as amended: a tool-call request whose name is missing or
empty is silently skipped — the executor is not consulted for it, no
tool-role message is appended for it, and the iteration proceeds
exactly as if the batch had not contained that request.  In particular
the remaining requests are still executed in order and the loop
continues to the next model iteration whenever none of them yields an
envelope with falsy `ok` and a `None` error; if one does, the line-212
`TypeError` terminates the run (for the batch with or without the
unnamed request alike), so requests after it are not executed. -/
theorem C10_unnamed_call_skipped
    (env : ExecEnv) (user : UserInput) (llm : List Message → LLMResponse)
    (maxIters fuel : Nat) (messages : List Message) (m : AssistantMessage)
    (ms : List AssistantMessage) (pre rest : List ToolCallReq) (c : ToolCallReq)
    (hllm : llm messages = { error := none, choices := m :: ms })
    (hext : extractToolCalls m = pre ++ c :: rest)
    (hname : c.name = none ∨ c.name = some "") :
    Orchestrator.runFrom (ToolExecutor.execute env user) llm env.jsonLoads maxIters
        (fuel + 1) messages
      = batchStep (ToolExecutor.execute env user) llm env.jsonLoads maxIters fuel
          (pre ++ rest) (messages ++ [assistantRaw m])
    ∧ ((∀ c' ∈ pre ++ rest,
        callCrashes (ToolExecutor.execute env user) env.jsonLoads c' = false) →
        Orchestrator.runFrom (ToolExecutor.execute env user) llm env.jsonLoads maxIters
            (fuel + 1) messages
          = Orchestrator.runFrom (ToolExecutor.execute env user) llm env.jsonLoads
              maxIters fuel
              ((messages ++ [assistantRaw m])
                ++ (pre ++ rest).filterMap
                    (callToolMsg (ToolExecutor.execute env user) env.jsonLoads))) := by
  have hcalls : (extractToolCalls m).isEmpty = false := by
    rw [hext]; cases pre <;> simp
  have h1 : Orchestrator.runFrom (ToolExecutor.execute env user) llm env.jsonLoads
      maxIters (fuel + 1) messages
      = batchStep (ToolExecutor.execute env user) llm env.jsonLoads maxIters fuel
          (pre ++ rest) (messages ++ [assistantRaw m]) := by
    rw [runFrom_toolcalls_step hllm hcalls, hext]
    unfold batchStep
    rw [processCalls_skip_middle _ _ _ hname]
  refine ⟨h1, ?_⟩
  intro hns
  rw [h1]
  unfold batchStep
  rw [processCalls_ok_eq _ _ _ hns]

/-- Witness for C10 as amended: a batch whose first request has no name
continues exactly as if only the second (non-crashing) request had been
made, that request's tool message being the only one appended. -/
theorem C10_unnamed_call_skipped_witness :
    wLlmSkip [] = { error := none, choices := [wAssistantSkipMsg] } ∧
    extractToolCalls wAssistantSkipMsg =
      [] ++ (({ id := none, name := none, arguments := none } : ToolCallReq) ::
        [{ id := some "call_2", name := some "get_system_info",
           arguments := some (RawParams.dict []) }]) ∧
    (({ id := none, name := none, arguments := none } : ToolCallReq).name = none ∨
      ({ id := none, name := none, arguments := none } : ToolCallReq).name = some "") ∧
    (∀ c' ∈ ([] : List ToolCallReq) ++
        [{ id := some "call_2", name := some "get_system_info",
           arguments := some (RawParams.dict []) }],
      callCrashes (ToolExecutor.execute wEnvInteractive UserInput.interrupt)
        wEnvInteractive.jsonLoads c' = false) ∧
    Orchestrator.runFrom (ToolExecutor.execute wEnvInteractive UserInput.interrupt)
        wLlmSkip wEnvInteractive.jsonLoads 6 (1 + 1) []
      = Orchestrator.runFrom (ToolExecutor.execute wEnvInteractive UserInput.interrupt)
          wLlmSkip wEnvInteractive.jsonLoads 6 1
          (([] ++ [assistantRaw wAssistantSkipMsg])
            ++ (([] : List ToolCallReq) ++
                [({ id := some "call_2", name := some "get_system_info",
                    arguments := some (RawParams.dict []) } : ToolCallReq)]).filterMap
                (callToolMsg (ToolExecutor.execute wEnvInteractive UserInput.interrupt)
                  wEnvInteractive.jsonLoads)) := by
  refine ⟨rfl, rfl, Or.inl rfl, by decide, ?_⟩
  exact (C10_unnamed_call_skipped wEnvInteractive UserInput.interrupt wLlmSkip 6 1 []
    wAssistantSkipMsg [] []
    [{ id := some "call_2", name := some "get_system_info",
       arguments := some (RawParams.dict []) }]
    { id := none, name := none, arguments := none }
    rfl rfl (Or.inl rfl)).2 (by decide)

end Wolf
